import Mathlib

/-!
Verification of the two units in the repository `CS-370-stuff`:
the `.edu` email validator (`studylink-Folder/studyLink_eduEmailValidator_v1.py`)
and the image blob store/retrieve snippets (`studylink-Folder/image_store.py`).

The Python code is shallowly embedded: the validator's two regular expressions
are embedded as executable decision procedures on `List Char` (a backtracking
regex match is an existential over split points, implemented by enumerating all
of them), the database table `image_store` as a list of rows in insertion
order, and the unguarded `cursor.fetchone()[0]` as an `Except` whose error
constructor stands for the `TypeError` Python raises when subscripting `None`.
-/

namespace StudyLink

/-! ## Email validator

Embedding of `validate_edu_email` from
`studylink-Folder/studyLink_eduEmailValidator_v1.py`.

The format pattern is `^[a-zA-Z0-9._%+-]+@[a-zA-Z0-9.-]+\.[a-zA-Z]{2,}$`,
checked with `re.match` (anchored at the start already; the trailing `$`
makes it anchored at the end as well, except that in Python `$` also matches
just before one trailing newline).  The suffix pattern is `\.edu$` checked
with `re.search` and `re.IGNORECASE`.
-/

/-- The character class `[a-zA-Z0-9._%+-]` of the local part. -/
def emailLocalChar (c : Char) : Bool :=
  c.isAlpha || c.isDigit || c == '.' || c == '_' || c == '%' || c == '+' || c == '-'

/-- The character class `[a-zA-Z0-9.-]` of the domain part. -/
def emailDomainChar (c : Char) : Bool :=
  c.isAlpha || c.isDigit || c == '.' || c == '-'

/-- Whole-string match of `[a-zA-Z0-9._%+-]+@[a-zA-Z0-9.-]+\.[a-zA-Z]{2,}`.
A backtracking regex match succeeds iff some decomposition
`local ++ '@' ++ domain ++ '.' ++ tld` satisfies all the character classes,
so we enumerate every candidate position of the literal `@` and of the
literal `.`. -/
def matchesEmailChars (cs : List Char) : Bool :=
  (List.range cs.length).any fun i =>
    (cs.getD i ' ' == '@') &&
    (!(cs.take i).isEmpty && (cs.take i).all emailLocalChar) &&
    (let tail := cs.drop (i + 1)
     (List.range tail.length).any fun j =>
       (tail.getD j ' ' == '.') &&
       (!(tail.take j).isEmpty && (tail.take j).all emailDomainChar) &&
       (decide (2 ≤ (tail.drop (j + 1)).length) && (tail.drop (j + 1)).all Char.isAlpha))

/-- `re.match(email_pattern, s)` succeeds: the pattern matches the whole
string, or — Python `$` semantics — the whole string minus one trailing
newline. -/
def matchesEmailFormat (s : String) : Bool :=
  matchesEmailChars s.data ||
    (s.data.getLast? == some '\n' && matchesEmailChars s.data.dropLast)

/-- The last four characters are `.edu` up to letter case. -/
def endsEduChars (cs : List Char) : Bool :=
  match cs.reverse with
  | u :: d :: e :: dot :: _ =>
      u.toLower == 'u' && d.toLower == 'd' && e.toLower == 'e' && dot == '.'
  | _ => false

/-- `re.search(r'\.edu$', s, re.IGNORECASE)` succeeds: `.edu` (case
insensitive) ends the string, or — Python `$` semantics — ends the string
minus one trailing newline. -/
def endsWithEdu (s : String) : Bool :=
  endsEduChars s.data ||
    (s.data.getLast? == some '\n' && endsEduChars s.data.dropLast)

/-- `validate_edu_email` as implemented.  The result pairs the returned
boolean with the diagnostic line the function prints.  Note that the
implementation, unlike the pseudocode block above it in the same file, has
no empty-string branch: every input goes straight to the format regex. -/
def validate_edu_email (email : String) : Bool × String :=
  if !matchesEmailFormat email then
    (false, "Invalid email format: " ++ email)
  else if !endsWithEdu email then
    (false, "Email does not end with .edu: " ++ email)
  else
    (true, "Valid .edu email: " ++ email)

/-! ## The `main` console wrapper

`main` reads one line, applies Python `.strip()`, calls the validator and
prints a final verdict line. -/

/-- The ASCII characters removed by Python `str.strip()` (space, tab,
newline, carriage return, vertical tab `\x0b`, form feed `\x0c`; Python
additionally strips some non-ASCII Unicode spaces, irrelevant here). -/
def pySpace (c : Char) : Bool :=
  c == ' ' || c == '\t' || c == '\n' || c == '\r' ||
    c == Char.ofNat 11 || c == Char.ofNat 12

/-- `str.strip()` on the character list: drop whitespace from the front,
then from the back (via reversal). -/
def stripChars (l : List Char) : List Char :=
  ((l.dropWhile pySpace).reverse.dropWhile pySpace).reverse

/-- `user_input.strip()`. -/
def pyStrip (s : String) : String :=
  ⟨stripChars s.data⟩

/-- `main` on one line of standard input: the pair of the validator's
boolean on the stripped input and the final verdict line printed. -/
def main_run (raw_line : String) : Bool × String :=
  if !(validate_edu_email (pyStrip raw_line)).1 then
    ((validate_edu_email (pyStrip raw_line)).1, "Invalid email address")
  else
    ((validate_edu_email (pyStrip raw_line)).1, "Valid email address")

/-! ## Blob transfer unit

Embedding of `studylink-Folder/image_store.py`.  The `image_store` table is
a list of rows in insertion order; `INSERT` appends a row; the `SELECT` plus
`cursor.fetchone()` returns the first row whose `image_name` matches, or
`None` when the result set is empty, in which case the script's
`cursor.fetchone()[0]` raises a `TypeError` (`None` is not subscriptable),
modelled as the `Except` error case. -/

/-- One row of the `image_store` table. -/
structure ImageRow where
  image_name : String
  image_data : List Nat
deriving DecidableEq

/-- The `image_store` table, rows in insertion order. -/
abbrev ImageStore := List ImageRow

/-- `INSERT INTO image_store (image_name, image_data) VALUES (%s, %s)`
followed by `db.commit()`: appends one row. -/
def store_image (table : ImageStore) (name : String) (data : List Nat) : ImageStore :=
  table ++ [{ image_name := name, image_data := data }]

/-- `SELECT image_data FROM image_store WHERE image_name = name` followed by
`cursor.fetchone()`: the first matching row's data, if any. -/
def fetchone_image (table : ImageStore) (name : String) : Option (List Nat) :=
  (table.find? fun r => r.image_name == name).map fun r => r.image_data

/-- The runtime error the retrieve script can raise. -/
inductive PyRuntimeError where
  | typeErrorNoneNotSubscriptable
deriving DecidableEq

/-- The retrieve script's `image_data = cursor.fetchone()[0]`: subscripting
the fetched row.  When `fetchone()` is `None` (no matching row) this raises
`TypeError: 'NoneType' object is not subscriptable`. -/
def retrieve_image (table : ImageStore) (name : String) :
    Except PyRuntimeError (List Nat) :=
  match fetchone_image table name with
  | some image_data => Except.ok image_data
  | none => Except.error PyRuntimeError.typeErrorNoneNotSubscriptable

/-- `open('retrieved_image.jpg', 'wb')` then `f.write(image_data)`: the file
afterwards holds exactly the written bytes. -/
def write_file (image_data : List Nat) : List Nat :=
  image_data

/-- The retrieve script as a state transformer on the table: it only issues
a `SELECT`, so the table passes through unchanged alongside the result. -/
def retrieve_op (table : ImageStore) (name : String) :
    ImageStore × Except PyRuntimeError (List Nat) :=
  (table, retrieve_image table name)

/-! ## Helper lemmas -/

/-- The head of `dropWhile p l` never satisfies `p`. -/
theorem head?_dropWhile_not_sat {α : Type} (p : α → Bool) (l : List α) :
    ∀ a, (l.dropWhile p).head? = some a → p a = false := by
  induction l with
  | nil =>
    intro a h
    simp at h
  | cons x xs ih =>
    intro a h
    cases hx : p x with
    | true =>
      rw [List.dropWhile_cons_of_pos hx] at h
      exact ih a h
    | false =>
      rw [List.dropWhile_cons_of_neg (by simp [hx])] at h
      simp at h
      subst h
      exact hx

/-- `dropWhile p` is the identity on a list whose head fails `p`. -/
theorem dropWhile_eq_self_of_head {α : Type} (p : α → Bool) (l : List α)
    (h : ∀ a, l.head? = some a → p a = false) : l.dropWhile p = l := by
  cases l with
  | nil => rfl
  | cons x xs =>
    exact List.dropWhile_cons_of_neg (by simp [h x rfl])

/-- `dropWhile` keeps the last element when its result is nonempty. -/
theorem getLast?_dropWhile {α : Type} (p : α → Bool) (l : List α)
    (h : l.dropWhile p ≠ []) : (l.dropWhile p).getLast? = l.getLast? := by
  induction l with
  | nil => simp at h
  | cons x xs ih =>
    cases hx : p x with
    | true =>
      rw [List.dropWhile_cons_of_pos hx] at h ⊢
      have hxs : xs ≠ [] := by
        intro hn
        rw [hn] at h
        simp at h
      rw [ih h]
      cases xs with
      | nil => exact absurd rfl hxs
      | cons y ys => rw [List.getLast?_cons_cons]
    | false =>
      rw [List.dropWhile_cons_of_neg (by simp [hx])]

/-- Python `strip()` is idempotent. -/
theorem stripChars_idem (l : List Char) : stripChars (stripChars l) = stripChars l := by
  have step1 :
      (((l.dropWhile pySpace).reverse.dropWhile pySpace).reverse).dropWhile pySpace
        = ((l.dropWhile pySpace).reverse.dropWhile pySpace).reverse := by
    apply dropWhile_eq_self_of_head
    intro a ha
    rw [List.head?_reverse] at ha
    have hne : (l.dropWhile pySpace).reverse.dropWhile pySpace ≠ [] := by
      intro h0
      rw [h0] at ha
      simp at ha
    rw [getLast?_dropWhile pySpace (l.dropWhile pySpace).reverse hne,
        List.getLast?_reverse] at ha
    exact head?_dropWhile_not_sat pySpace l a ha
  have step2 :
      ((l.dropWhile pySpace).reverse.dropWhile pySpace).dropWhile pySpace
        = (l.dropWhile pySpace).reverse.dropWhile pySpace :=
    dropWhile_eq_self_of_head _ _
      (head?_dropWhile_not_sat pySpace (l.dropWhile pySpace).reverse)
  unfold stripChars
  rw [step1, List.reverse_reverse, step2]

/-- Idempotence of `pyStrip` at the string level. -/
theorem pyStrip_idem (s : String) : pyStrip (pyStrip s) = pyStrip s :=
  congrArg String.mk (stripChars_idem s.data)

/-- On a table with no row named `name`, `find?` after `store_image` returns
exactly the row just inserted. -/
theorem find?_store_of_fresh (table : ImageStore) (name : String) (data : List Nat)
    (hfresh : ∀ r ∈ table, r.image_name ≠ name) :
    (store_image table name data).find? (fun r => r.image_name == name)
      = some { image_name := name, image_data := data } := by
  unfold store_image
  rw [List.find?_append]
  have h1 : table.find? (fun r => r.image_name == name) = none := by
    rw [List.find?_eq_none]
    intro r hr
    simpa using hfresh r hr
  rw [h1]
  simp

/-! ## Claim theorems -/

/-- C1: the implementation has no empty-string branch; `validate("")` falls
through to the format regex (which an empty string fails), so the returned
message is the format diagnostic, not "Empty email address" as the file's
own pseudocode and the specification require. -/
theorem validate_empty_email :
    validate_edu_email "" = (false, "Invalid email format: ") ∧
    "Invalid email format: " ≠ "Empty email address" := by
  exact ⟨rfl, by decide⟩

/-- C2: on a table with no matching row, `fetchone()` returns `None` and the
script's unguarded `cursor.fetchone()[0]` raises `TypeError`; the retrieve
operation crashes instead of producing a `NotFoundError` result. -/
theorem retrieve_missing_row_crashes :
    fetchone_image [] "example.jpg" = none ∧
    retrieve_image [] "example.jpg"
      = Except.error PyRuntimeError.typeErrorNoneNotSubscriptable := by
  exact ⟨rfl, rfl⟩

/-- C3 (amended): provided the table holds no pre-existing row named `N`,
storing a non-empty byte sequence `B` under `N` and then retrieving by `N`
yields exactly `B`, and the retrieved bytes are written verbatim to the
output file. -/
theorem store_retrieve_roundtrip (table : ImageStore) (name : String) (data : List Nat)
    (hdata : data ≠ [])
    (hfresh : ∀ r ∈ table, r.image_name ≠ name) :
    retrieve_image (store_image table name data) name = Except.ok data ∧
    write_file data = data := by
  refine ⟨?_, rfl⟩
  unfold retrieve_image fetchone_image
  rw [find?_store_of_fresh table name data hfresh]
  rfl

/-- Witness for C3: a concrete fresh store-then-retrieve round trip. -/
theorem store_retrieve_roundtrip_witness :
    ([137, 80, 78, 71] : List Nat) ≠ [] ∧
    (retrieve_image (store_image [] "example.jpg" [137, 80, 78, 71]) "example.jpg"
        = Except.ok [137, 80, 78, 71] ∧
      write_file [137, 80, 78, 71] = [137, 80, 78, 71]) := by
  exact ⟨by decide,
    store_retrieve_roundtrip [] "example.jpg" [137, 80, 78, 71] (by decide)
      (fun r hr => absurd hr (List.not_mem_nil r))⟩

/-- Counterexample for C3 as frozen: names are not unique, and `fetchone`
returns the first matching row, so after storing `[1]` under a name that
already has a row with data `[0]`, retrieving returns the old `[0]`, not the
newly stored `[1]`. -/
theorem store_retrieve_roundtrip_cex :
    retrieve_image
        (store_image [{ image_name := "example.jpg", image_data := [0] }]
          "example.jpg" [1]) "example.jpg" ≠ Except.ok [1] ∧
    retrieve_image
        (store_image [{ image_name := "example.jpg", image_data := [0] }]
          "example.jpg" [1]) "example.jpg" = Except.ok [0] := by
  refine ⟨fun h => ?_, rfl⟩
  exact absurd (Except.ok.inj h) (by decide)

/-- C4: any candidate that passes the format regex but fails the
case-insensitive `.edu` suffix search gets the suffix-specific diagnostic,
with the boolean false. -/
theorem validate_wrong_suffix (email : String)
    (h1 : matchesEmailFormat email = true) (h2 : endsWithEdu email = false) :
    validate_edu_email email = (false, "Email does not end with .edu: " ++ email) := by
  simp [validate_edu_email, h1, h2]

/-- Witness for C4: `student@school.com` and `a@b.education` both pass the
format regex, fail the suffix check, and get the suffix message. -/
theorem validate_wrong_suffix_witness :
    (matchesEmailFormat "student@school.com" = true ∧
      endsWithEdu "student@school.com" = false ∧
      validate_edu_email "student@school.com"
        = (false, "Email does not end with .edu: " ++ "student@school.com")) ∧
    (matchesEmailFormat "a@b.education" = true ∧
      endsWithEdu "a@b.education" = false ∧
      validate_edu_email "a@b.education"
        = (false, "Email does not end with .edu: " ++ "a@b.education")) := by
  exact ⟨⟨rfl, rfl, validate_wrong_suffix "student@school.com" rfl rfl⟩,
    ⟨rfl, rfl, validate_wrong_suffix "a@b.education" rfl rfl⟩⟩

/-- C5: any candidate that passes both the format regex and the
case-insensitive `.edu` suffix search is accepted with the valid message. -/
theorem validate_valid_edu (email : String)
    (h1 : matchesEmailFormat email = true) (h2 : endsWithEdu email = true) :
    validate_edu_email email = (true, "Valid .edu email: " ++ email) := by
  simp [validate_edu_email, h1, h2]

/-- Witness for C5: `student@university.edu` is accepted and, the suffix
check being case-insensitive, so is `STUDENT@SCHOOL.EDU`. -/
theorem validate_valid_edu_witness :
    (matchesEmailFormat "student@university.edu" = true ∧
      endsWithEdu "student@university.edu" = true ∧
      validate_edu_email "student@university.edu"
        = (true, "Valid .edu email: " ++ "student@university.edu")) ∧
    (matchesEmailFormat "STUDENT@SCHOOL.EDU" = true ∧
      endsWithEdu "STUDENT@SCHOOL.EDU" = true ∧
      validate_edu_email "STUDENT@SCHOOL.EDU"
        = (true, "Valid .edu email: " ++ "STUDENT@SCHOOL.EDU")) := by
  exact ⟨⟨rfl, rfl, validate_valid_edu "student@university.edu" rfl rfl⟩,
    ⟨rfl, rfl, validate_valid_edu "STUDENT@SCHOOL.EDU" rfl rfl⟩⟩

/-- C6: any candidate that fails the anchored format regex gets the format
diagnostic with boolean false — the result is fixed by the failed format
check alone, so the suffix check cannot influence it. -/
theorem validate_bad_format (email : String)
    (h1 : matchesEmailFormat email = false) :
    validate_edu_email email = (false, "Invalid email format: " ++ email) := by
  simp [validate_edu_email, h1]

/-- Witness for C6: `not-an-email` fails the format regex and gets the
format message. -/
theorem validate_bad_format_witness :
    matchesEmailFormat "not-an-email" = false ∧
    validate_edu_email "not-an-email"
      = (false, "Invalid email format: " ++ "not-an-email") := by
  exact ⟨rfl, validate_bad_format "not-an-email" rfl⟩

/-- C7: on every input string the validator returns normally with one of its
three boolean-plus-message results; in this total embedding there is no
exception path, and failure is signalled only through the `false` first
component. -/
theorem validate_total_result (email : String) :
    validate_edu_email email = (false, "Invalid email format: " ++ email) ∨
    validate_edu_email email = (false, "Email does not end with .edu: " ++ email) ∨
    validate_edu_email email = (true, "Valid .edu email: " ++ email) := by
  cases h1 : matchesEmailFormat email with
  | false => exact Or.inl (by simp [validate_edu_email, h1])
  | true =>
    cases h2 : endsWithEdu email with
    | false => exact Or.inr (Or.inl (by simp [validate_edu_email, h1, h2]))
    | true => exact Or.inr (Or.inr (by simp [validate_edu_email, h1, h2]))

/-- C8: storing appends exactly one new row — the length grows by one, every
pre-existing row is unchanged in place, and the suffix beyond them is just
the new row — and the retrieve operation leaves the table exactly as it
was. -/
theorem store_adds_one_row_retrieve_pure (table : ImageStore) (name : String)
    (data : List Nat) :
    (store_image table name data).length = table.length + 1 ∧
    (store_image table name data).take table.length = table ∧
    (store_image table name data).drop table.length
      = [{ image_name := name, image_data := data }] ∧
    (retrieve_op table name).1 = table := by
  refine ⟨?_, ?_, ?_, rfl⟩
  · simp [store_image]
  · exact List.take_left table _
  · exact List.drop_left table _

/-- C9: `main` strips the raw line before validating, so every line is
judged exactly as its stripped form is (stripping is idempotent); in
particular the padded `"  student@university.edu  "` is accepted by `main`
even though the validator itself rejects the unstripped string. -/
theorem main_strips_whitespace :
    (∀ raw_line : String, main_run raw_line = main_run (pyStrip raw_line)) ∧
    pyStrip "  student@university.edu  " = "student@university.edu" ∧
    main_run "  student@university.edu  " = (true, "Valid email address") ∧
    validate_edu_email "  student@university.edu  "
      = (false, "Invalid email format: " ++ "  student@university.edu  ") := by
  refine ⟨fun raw_line => ?_, rfl, rfl, rfl⟩
  unfold main_run
  rw [pyStrip_idem raw_line]

/-- C10: the domain class `[a-zA-Z0-9.-]+` puts no constraint on dot
placement, so candidates with consecutive or leading dots in the domain are
accepted. -/
theorem validate_accepts_loose_dots :
    validate_edu_email "a@b..edu" = (true, "Valid .edu email: a@b..edu") ∧
    validate_edu_email "a@.b.edu" = (true, "Valid .edu email: a@.b.edu") := by
  exact ⟨rfl, rfl⟩

end StudyLink
